import Mathlib

/-!
Shallow embedding of the Power State Monitor & Notification Fanout subsystem
of the EC_TG_Bot_v2 repository.

Conventions used throughout:
* The `statuses` table is represented as a `List Status` in insertion order.
  `date_created` is assigned by the database at insertion time (`func.now()`),
  and the polling scheduler is the only writer, so insertion order coincides
  with `date_created` order; the SQL query `ORDER BY date_created DESC LIMIT n`
  is therefore the last `n` elements of the list, newest first.
* Timestamps are modelled as `Nat` seconds since the epoch (timezone-aware
  datetimes in the source).
* A Python exception is modelled by the record `Exn` carrying exactly the
  attributes inspected by `_is_retryable_telegram_exception`
  (`src/bot/utils.py`): the lowercased type name, the lowercased message,
  the `isinstance` facts, and the optional `status_code` / `error_code`
  attributes.
* An async send that may raise is modelled as `Except Exn Unit`; a whole
  delivery attempt sequence is a function `Nat → Except Exn Unit` giving the
  outcome of each underlying `bot.send_message` call, numbered from 1.
-/

namespace ECBot

/-- Substring test on character lists: `true` iff `pat` occurs contiguously
inside `s`.  Used to embed Python's `pat in s` on strings. -/
def charListStartsWith : List Char → List Char → Bool
  | [], _ => true
  | _ :: _, [] => false
  | p :: ps, c :: cs => (p == c) && charListStartsWith ps cs

def charListHasSub (s pat : List Char) : Bool :=
  match s with
  | [] => pat.isEmpty
  | _ :: rest => charListStartsWith pat s || charListHasSub rest pat

/-- `strContains s pat` embeds Python's `pat in s` for strings. -/
def strContains (s pat : String) : Bool :=
  charListHasSub s.data pat.data

/-- One row of the `statuses` table (`src/db/models/status.py`):
`id` (serial primary key), `value` (Boolean), `label` (nullable String),
`date_created` (server default `now()`). -/
structure Status where
  id : Nat
  value : Bool
  label : Option String
  date_created : Nat
deriving Repr, DecidableEq

/-- One row of the `users` table (`src/db/models/user.py`), restricted to the
fields the notification fanout reads. -/
structure User where
  id : Nat
  notifs_enabled : Bool
  night_notif_sound_enabled : Bool
  language_code : Option String
deriving Repr, DecidableEq

/-- `SELECT ... ORDER BY date_created DESC LIMIT n` over the statuses table:
the last `n` inserted rows, newest first. -/
def orderByDateDescLimit (n : Nat) (events : List Status) : List Status :=
  events.reverse.take n

/-- `get_last_event_value` (`src/scheduler/main.py` lines 52-54):
`select(Status.value).order_by(Status.date_created.desc()).limit(1)` —
no label filter at all. -/
def get_last_event_value (events : List Status) : Option Bool :=
  (orderByDateDescLimit 1 events).head?.map (fun e => e.value)

/-- `record_event_if_changed` (`src/scheduler/main.py` lines 57-64): reads the
most recent event's value; if a prior event exists and its value equals the new
reading, records nothing and returns `false`; otherwise inserts
`Status(value=value)` — note: no `label` is passed, so the inserted row's
label is NULL — and returns `true`.  `newId` and `newDate` stand for the
database-assigned serial id and `now()` timestamp of the inserted row. -/
def record_event_if_changed (events : List Status) (value : Bool)
    (newId newDate : Nat) : List Status × Bool :=
  match get_last_event_value events with
  | some last_value =>
    if last_value = value then (events, false)
    else (events ++ [⟨newId, value, none, newDate⟩], true)
  | none => (events ++ [⟨newId, value, none, newDate⟩], true)

/-- Feeding a whole sequence of raw boolean readings through
`record_event_if_changed`, starting from store `events`; the database assigns
ids and timestamps increasing with `n`. -/
def runSchedulerFrom (events : List Status) (n : Nat) : List Bool → List Status
  | [] => events
  | r :: rs => runSchedulerFrom (record_event_if_changed events r n n).1 (n + 1) rs

/-- The polling scheduler run from an empty event store on a sequence of raw
readings. -/
def runScheduler (readings : List Bool) : List Status :=
  runSchedulerFrom [] 0 readings

/-- Adjacent-event relation of the spec: two consecutive events (in
`created_at` order) must carry different values. -/
def ValueAlternates (events : List Status) : Prop :=
  List.Chain' (fun a b => a.value ≠ b.value) events

/-- A Python exception as observed by the retry classifier
(`src/bot/utils.py` lines 36-75): `name` is `type(exc).__name__.lower()`,
`msg` is `str(exc).lower()`, the two Booleans record the `isinstance` checks
against `(ConnectionError, TimeoutError, OSError)` and against the telegram
library's `(TimedOut, NetworkError)`, and the two options are the optional
`status_code` / `error_code` attributes. -/
structure Exn where
  isBuiltinNetErr : Bool
  isTelegramNetErr : Bool
  name : String
  msg : String
  status_code : Option Nat
  error_code : Option Nat
deriving Repr, DecidableEq

/-- `_is_retryable_telegram_exception` (`src/bot/utils.py` lines 36-75),
check by check in source order.  Python's `if status_code and status_code >=
500` tests truthiness first, hence the `c ≠ 0` conjunct. -/
def _is_retryable_telegram_exception (e : Exn) : Bool :=
  e.isBuiltinNetErr
  || e.isTelegramNetErr
  || strContains e.name "network" || strContains e.msg "network"
  || strContains e.name "timeout" || strContains e.msg "timeout"
  || strContains e.name "connection" || strContains e.msg "connection"
  || strContains e.name "retry" || strContains e.name "rate"
  || strContains e.msg "429"
  || (match e.status_code with
      | some c => decide (c ≠ 0) && decide (500 ≤ c)
      | none => false)
  || (match e.error_code with
      | some c => (c == 500) || (c == 502) || (c == 503) || (c == 504)
      | none => false)

/-- `tenacity.wait_exponential(multiplier=m, min=lo, max=hi)`: the sleep after
attempt number `a` is `m * 2^(a-1)` clamped into `[lo, hi]` (the source's own
docstring: "Uses exponential backoff: 1s, 2s, 4s (max 5s)"). -/
def tenacityWait (m lo hi a : Nat) : Nat :=
  min hi (max lo (m * 2 ^ (a - 1)))

instance : DecidableEq (Except Exn Unit) := fun a b =>
  match a, b with
  | .ok (), .ok () => isTrue rfl
  | .ok (), .error _ => isFalse (fun hc => Except.noConfusion hc)
  | .error _, .ok () => isFalse (fun hc => Except.noConfusion hc)
  | .error e₁, .error e₂ =>
    if h : e₁ = e₂ then isTrue (h ▸ rfl)
    else isFalse (fun hc => h (Except.error.inj hc))

/-- Outcome of a tenacity-wrapped call: the number of the attempt on which the
call finished, the backoff sleeps performed between attempts, and the final
result (`.error` means the last exception was re-raised / surfaced). -/
structure RetryOutcome where
  attempts : Nat
  waits : List Nat
  result : Except Exn Unit
deriving Repr, DecidableEq

/-- The tenacity retry loop with `reraise=True`: `fuel` is the number of
retries still allowed (`stop_after_attempt(n)` gives initial fuel `n - 1`),
`a` the current attempt number, `f` the outcome of each underlying call.
A non-retryable exception, or exhaustion of attempts, surfaces the last
exception; success stops immediately. -/
def retryCall (retryable : Exn → Bool) (wait : Nat → Nat)
    (f : Nat → Except Exn Unit) : Nat → Nat → RetryOutcome
  | 0, a => { attempts := a, waits := [], result := f a }
  | fuel + 1, a =>
    match f a with
    | .ok _ => { attempts := a, waits := [], result := .ok () }
    | .error e =>
      if retryable e then
        let rest := retryCall retryable wait f fuel (a + 1)
        { rest with waits := wait a :: rest.waits }
      else { attempts := a, waits := [], result := .error e }

/-- `send_message_with_retry` (`src/bot/utils.py` lines 78-110) and its twin
`_send_message_with_retry` (`src/bot/main.py` lines 490-515): the actual
`bot.send_message` call wrapped in
`@retry(stop=stop_after_attempt(3), wait=wait_exponential(multiplier=1, min=1,
max=5), retry=retry_if_exception(_is_retryable_telegram_exception),
reraise=True)`.  `f n` is the outcome of the `n`-th underlying send. -/
def send_message_with_retry (f : Nat → Except Exn Unit) : RetryOutcome :=
  retryCall _is_retryable_telegram_exception (tenacityWait 1 1 5) f 2 1

/-- Per-recipient delivery result as recorded by the fanout. -/
inductive DeliveryResult where
  | success
  | failure (e : Exn)
deriving Repr, DecidableEq

def DeliveryResult.isSuccess : DeliveryResult → Bool
  | .success => true
  | .failure _ => false

/-- `send_status_notification` (`src/bot/main.py` lines 518-569), outcome
part: awaits the retry-wrapped send inside `try/except Exception`; a final
failure after all retries is logged and becomes a per-recipient failure value
— it is never re-raised into the batch coordinator. -/
def send_status_notification (f : Nat → Except Exn Unit) : DeliveryResult :=
  match (send_message_with_retry f).result with
  | .ok _ => .success
  | .error e => .failure e

/-- `timedelta.seconds` for a non-negative delta of `d` whole seconds: the
seconds component after whole days are split off.  The source computes
`(latest_status.date_created - previous_status.date_created).seconds`. -/
def timedeltaSeconds (d : Nat) : Nat :=
  d % 86400

/-- Observable outcome of one notification tick
(`check_and_send_notifications`, `src/bot/main.py` lines 597-674):
the cursor (`last_notified_status_id`) after the tick, whether a fanout was
performed, the per-recipient success/failure counts of the fanout, and the
elapsed-time value (`time_diff`) passed to the message builder. -/
structure TickOutcome where
  cursor : Option Nat
  broadcasted : Bool
  successes : Nat
  failures : Nat
  time_diff : Option Nat
deriving Repr, DecidableEq

/-- `check_and_send_notifications` (`src/bot/main.py` lines 597-674), the
monolithic notification tick, translated branch by branch:

1. read the two most recent statuses; none ⇒ return (cursor untouched);
2. if the cursor is `None`, initialise it to the latest event id;
3. if the latest id equals the cursor, return — no broadcast;
4. if there is no previous status or the value did not change, advance the
   cursor and return — no broadcast;
5. otherwise filter the users with `notifs_enabled`; if none, advance the
   cursor and return;
6. otherwise compute `time_diff = (latest - previous).seconds`, deliver to
   every enabled user (each delivery isolated inside
   `send_status_notification`), then advance the cursor.

`deliver u` gives the per-attempt send outcomes for user `u`. -/
def check_and_send_notifications (events : List Status) (users : List User)
    (last_notified_status_id : Option Nat)
    (deliver : User → Nat → Except Exn Unit) : TickOutcome :=
  match orderByDateDescLimit 2 events with
  | [] => ⟨last_notified_status_id, false, 0, 0, none⟩
  | latest_status :: rest =>
    let cursor0 : Nat :=
      match last_notified_status_id with
      | none => latest_status.id
      | some c => c
    if latest_status.id = cursor0 then ⟨some cursor0, false, 0, 0, none⟩
    else
      match rest with
      | [] => ⟨some latest_status.id, false, 0, 0, none⟩
      | previous_status :: _ =>
        if latest_status.value = previous_status.value then
          ⟨some latest_status.id, false, 0, 0, none⟩
        else
          let users_enabled := users.filter (fun u => u.notifs_enabled)
          if users_enabled.isEmpty then
            ⟨some latest_status.id, false, 0, 0, none⟩
          else
            let td := timedeltaSeconds
              (latest_status.date_created - previous_status.date_created)
            let results := users_enabled.map
              (fun u => send_status_notification (deliver u))
            ⟨some latest_status.id, true,
             (results.filter (fun r => r.isSuccess)).length,
             (results.filter (fun r => !r.isSuccess)).length,
             some td⟩

/-- The words a language pack contributes to the notification text
(`src/bot/lang_pack/base.py` attributes used by the fanout message builder). -/
structure LangWords where
  NOTIF_ATTENTION : String
  WORD_ELECTRICITY : String
  WORD_HOURS : String
  WORD_AND : String
  WORD_MINUTES : String
  NOTIF_POWER_TURN_ON_TIME : String
  NOTIF_POWER_TURN_OFF_TIME : String
  NOTIF_FOOTER : String
deriving Repr, DecidableEq

/-- The English language pack (`src/bot/lang_pack/en.py`): `WORD_HOURS = "h"`,
`WORD_AND = "and"`, `WORD_MINUTES = "min"`, and the notification phrases. -/
def enLangWords : LangWords where
  NOTIF_ATTENTION := "📢️  *ATTENTION*  📢"
  WORD_ELECTRICITY := "Power"
  WORD_HOURS := "h"
  WORD_AND := "and"
  WORD_MINUTES := "min"
  NOTIF_POWER_TURN_ON_TIME := "⏳Power was on for"
  NOTIF_POWER_TURN_OFF_TIME := "⏳Power was off for"
  NOTIF_FOOTER := "_You received this message because you enabled notifications in the bot settings\\. You can disable them at any time\\._"

/-- The elapsed-time suffix of the notification message
(`src/bot/jobs/power_notifications.py` lines 42-57, structurally identical to
`src/bot/main.py` lines 536-549 with hard-coded Russian words):
`diff_mins = time_diff // 60`; strictly more than 60 minutes is split into
hours and minutes, otherwise plain minutes.  The `\\.` is the MarkdownV2
escape of a full stop, exactly as in the source f-strings. -/
def text_suffix (lw : LangWords) (time_diff : Nat) : String :=
  let diff_mins := time_diff / 60
  let wordHours := lw.WORD_HOURS
  let wordAnd := lw.WORD_AND
  let wordMinutes := lw.WORD_MINUTES
  if 60 < diff_mins then
    let diff_hours := diff_mins / 60
    let diff_mins2 := diff_mins % 60
    if diff_mins2 = 0 then
      s!"{diff_hours} {wordHours}\\."
    else
      s!"{diff_hours} {wordHours}\\. {wordAnd} {diff_mins2} {wordMinutes}\\."
  else
    s!"{diff_mins} {wordMinutes}\\."

/-- The elapsed-time block of the notification message
(`src/bot/jobs/power_notifications.py` lines 41-62): empty when `time_diff`
is `None` or `0` (Python truthiness of `if time_diff:`), otherwise the
direction-dependent phrase around `text_suffix`. -/
def time_diff_text (lw : LangWords) (time_diff : Option Nat)
    (from_status to_status : Bool) : String :=
  match time_diff with
  | none => ""
  | some td =>
    if td = 0 then ""
    else
      let sfx := text_suffix lw td
      let onTime := lw.NOTIF_POWER_TURN_ON_TIME
      let offTime := lw.NOTIF_POWER_TURN_OFF_TIME
      if from_status && !to_status then
        s!"{onTime} {sfx}\n\n"
      else if !from_status && to_status then
        s!"{offTime} {sfx}\n\n"
      else ""

/-- The full notification text (`src/bot/jobs/power_notifications.py`
lines 36-64): header block, optional elapsed-time block, footer. -/
def notification_text (lw : LangWords) (from_status to_status : Bool)
    (time_diff : Option Nat) : String :=
  let to_text := if to_status then "ON" else "OFF"
  let to_emoji := if to_status then "🟢" else "🔴"
  let attn := lw.NOTIF_ATTENTION
  let elec := lw.WORD_ELECTRICITY
  let changes_text :=
    s!"{attn}\n\n{to_emoji}  {elec} {to_text}  {to_emoji}\n"
  changes_text ++ time_diff_text lw time_diff from_status to_status ++ lw.NOTIF_FOOTER

/-- The message as displayed to the recipient: Telegram MarkdownV2 renders
the escape `\\x` as the bare character `x`, so rendering strips the escaping
backslashes. -/
def renderedText (s : String) : String :=
  String.mk (s.data.filter (fun c => c != '\\'))

instance : DecidableEq (Except Unit Bool) := fun a b =>
  match a, b with
  | .ok x, .ok y =>
    if h : x = y then isTrue (h ▸ rfl)
    else isFalse (fun hc => h (Except.ok.inj hc))
  | .ok _, .error _ => isFalse (fun hc => Except.noConfusion hc)
  | .error _, .ok _ => isFalse (fun hc => Except.noConfusion hc)
  | .error (), .error () => isTrue rfl

/-- Outcome of the tenacity-wrapped device query: attempt count, backoff
sleeps, and either the device answer or the `DeviceTimeoutError` raised by the
`retry_error_callback` once all attempts are exhausted. -/
structure DeviceRetryOutcome where
  attempts : Nat
  waits : List Nat
  result : Except Unit Bool
deriving Repr, DecidableEq

/-- The retry loop of `is_device_on` (`src/scheduler/main.py` lines 39-49):
`retry_if_exception_type(Exception)` retries on ANY exception, so every failed
attempt (`g a = .error ()`) is retried while fuel remains; when attempts are
exhausted, `retry_error_callback=raise_custom_timeout` raises
`DeviceTimeoutError` (modelled as `.error ()`). -/
def deviceRetryCall (wait : Nat → Nat) (g : Nat → Except Unit Bool) :
    Nat → Nat → DeviceRetryOutcome
  | 0, a =>
    { attempts := a, waits := [],
      result := match g a with
                | .ok v => .ok v
                | .error _ => .error () }
  | fuel + 1, a =>
    match g a with
    | .ok v => { attempts := a, waits := [], result := .ok v }
    | .error _ =>
      let rest := deviceRetryCall wait g fuel (a + 1)
      { rest with waits := wait a :: rest.waits }

/-- `is_device_on` (`src/scheduler/main.py` lines 39-49):
`stop_after_attempt(5)` (initial fuel 4), `wait_exponential(multiplier=1,
min=1, max=10)`.  `g n` is the outcome of the `n`-th underlying Tapo device
query. -/
def is_device_on (g : Nat → Except Unit Bool) : DeviceRetryOutcome :=
  deviceRetryCall (tenacityWait 1 1 10) g 4 1

/-- `poll_once` (`src/scheduler/main.py` lines 67-87): a `DeviceTimeoutError`
from `is_device_on` (the only error it can surface, since every in-flight
exception is retried and exhaustion raises `DeviceTimeoutError`) is caught and
turned into the definite reading `value = False`; the reading is then fed to
`record_event_if_changed`. -/
def poll_once (events : List Status) (g : Nat → Except Unit Bool)
    (newId newDate : Nat) : List Status × Bool :=
  let value :=
    match (is_device_on g).result with
    | .ok v => v
    | .error _ => false
  record_event_if_changed events value newId newDate

/-- One row of the `heartbeat` table (`src/db/models/heartbeat.py`): a
nullable timezone-aware `timestamp` of the most recent ping, plus a nullable
`label`. -/
structure Heartbeat where
  id : Nat
  timestamp : Option Nat
  label : Option String
deriving Repr, DecidableEq

/-- Modelled from the spec: the heartbeat-staleness Liveness Source
(`powered = (now - HeartbeatRecord.timestamp) <= k * poll_interval`, reference
`k = 5`; no heartbeat record yet ⇒ a no-sample tick).  The repository ships
only the `Heartbeat` table model (`src/db/models/heartbeat.py`) and its HTTP
ingress; the sampling code itself is not under `src/`, so it is taken from
§4.1 of the spec. -/
def heartbeat_sample (record : Option Heartbeat) (now poll_interval k : Nat) :
    Option Bool :=
  match record with
  | none => none
  | some hb =>
    match hb.timestamp with
    | none => none
    | some ts => some (decide (now - ts ≤ k * poll_interval))

/-- Modelled from the spec: one tick of the heartbeat-strategy Polling Driver.
A no-sample tick records nothing; a sampled reading goes through the same
Transition Detector (`record_event_if_changed`) as the direct-query
strategy. -/
def heartbeat_poll_once (events : List Status) (record : Option Heartbeat)
    (now poll_interval k newId newDate : Nat) : List Status × Bool :=
  match heartbeat_sample record now poll_interval k with
  | none => (events, false)
  | some v => record_event_if_changed events v newId newDate

/-- HTTP response of the heartbeat ingress, restricted to what the claims
inspect: status code and the JSON body fields. -/
structure HeartbeatResponse where
  status_code : Nat
  body_status : Option String
  body_timestamp : Option Nat
  body_received_at : Option Nat
deriving Repr, DecidableEq

/-- `_validate_token` (`src/pi_server/main.py` lines 34-42) as a predicate:
the request is rejected with 401 exactly when the presented credentials
differ from the configured token. -/
def _validate_token_ok (configured provided : String) : Bool :=
  provided == configured

/-- `listen_heartbeat` (`src/pi_server/main.py` lines 81-100) together with
its `HTTPBearer` dependency.  `bearer` is the credentials string extracted
from the `Authorization: Bearer ...` header, `none` when the header is
missing or malformed — in that case FastAPI's `HTTPBearer` (`auto_error=True`)
rejects the request with **403 "Not authenticated"** before the endpoint body
runs.  Otherwise: when a token is configured, wrong credentials give 401;
a valid request upserts the single heartbeat row's `timestamp` and answers
200 with `{status, timestamp, received_at}`. -/
def listen_heartbeat (configuredToken : String) (bearer : Option String)
    (timestamp : Nat) (db : Option Heartbeat) (now : Nat) :
    HeartbeatResponse × Option Heartbeat :=
  match bearer with
  | none => (⟨403, none, none, none⟩, db)
  | some cred =>
    if configuredToken ≠ "" && !(_validate_token_ok configuredToken cred) then
      (⟨401, none, none, none⟩, db)
    else
      let row :=
        match db with
        | some h => { h with timestamp := some timestamp }
        | none => ⟨1, some timestamp, none⟩
      (⟨200, some "ok", some timestamp, some now⟩, some row)

/-- `GET /health` (`src/pi_server/main.py` lines 103-105): 200
`{status: "ok"}`, unconditionally. -/
def health : HeartbeatResponse :=
  ⟨200, some "ok", none, none⟩

/-- The required positional parameters of `send_message_with_retry`
(`src/bot/utils.py` lines 85-93), in signature order; the trailing
`markdown` parameter has a default and is omitted. -/
def send_message_with_retry_required_params : List String :=
  ["bot_app", "semaphore", "rate_limiter", "user_id", "message_text", "disable_sound"]

/-- The positional arguments of the call
`send_message_with_retry(rate_limiter, semaphore, user_id, final_text,
disable_sound)` in `_send_status_notification`
(`src/bot/jobs/power_notifications.py` line 67), in call order. -/
def send_status_notification_call_args : List String :=
  ["rate_limiter", "semaphore", "user_id", "final_text", "disable_sound"]

/-- Python positional-argument binding: with fewer positional arguments than
required parameters the call raises `TypeError` (`none`); otherwise each
parameter is bound to the argument at the same position. -/
def bindPositional (params args : List String) :
    Option (List (String × String)) :=
  if args.length < params.length then none
  else some (params.zip args)

/-- The `TypeError` raised by the mis-matched call, as seen by the retry
classifier: not a network error, name `typeerror`, no status/error codes. -/
def typeErrorExn : Exn :=
  { isBuiltinNetErr := false
    isTelegramNetErr := false
    name := "typeerror"
    msg := "missing 1 required positional argument: disable_sound"
    status_code := none
    error_code := none }

/-- `_send_status_notification` (`src/bot/jobs/power_notifications.py`
lines 16-73), delivery part: the `try` block awaits
`send_message_with_retry(rate_limiter, semaphore, user_id, final_text,
disable_sound)`.  If positional binding fails, `TypeError` is raised before
any send happens, caught by the surrounding `except Exception`, and recorded
as a per-recipient failure with zero messages sent; only a successful binding
would ever reach the real send (`sendWith`).  The result pairs the recorded
`DeliveryResult` with the number of messages actually sent. -/
def _send_status_notification_modular
    (sendWith : List (String × String) → DeliveryResult × Nat) :
    DeliveryResult × Nat :=
  match bindPositional send_message_with_retry_required_params
      send_status_notification_call_args with
  | none => (.failure typeErrorExn, 0)
  | some bound => sendWith bound

/-- The label filter used by the read queries of the conversational surface
and the modular notification job: `WHERE statuses.label = :power_label`.
SQL equality with a NULL `label` is never satisfied. -/
def filterByLabel (power_label : String) (events : List Status) : List Status :=
  events.filter (fun e => e.label == some power_label)

/-- `check_and_send_notifications` of the modular job
(`src/bot/jobs/power_notifications.py` lines 106-218): the same tick logic as
the monolithic one, but reading only the statuses whose `label` equals
`str(Label.power)`. -/
def check_and_send_notifications_modular (plabel : String)
    (events : List Status) (users : List User)
    (last_notified_status_id : Option Nat)
    (deliver : User → Nat → Except Exn Unit) : TickOutcome :=
  check_and_send_notifications (filterByLabel plabel events) users
    last_notified_status_id deliver

/-- Relabelling every event with a fixed label — used to state that the
scheduler's read query ignores the `label` column entirely. -/
def relabel (l : Option String) (events : List Status) : List Status :=
  events.map (fun e => { e with label := l })

/-- A concrete transient delivery error: `telegram.error.TimedOut`
(an `isinstance` hit of the telegram network-error branch of the
classifier). -/
def transientExn : Exn :=
  { isBuiltinNetErr := false
    isTelegramNetErr := true
    name := "timedout"
    msg := "timed out"
    status_code := none
    error_code := none }

/-- A concrete permanent (non-retryable) delivery error: a Telegram
`BadRequest` for a non-existent chat — no branch of the classifier
matches it. -/
def permanentExn : Exn :=
  { isBuiltinNetErr := false
    isTelegramNetErr := false
    name := "badrequest"
    msg := "chat not found"
    status_code := none
    error_code := some 400 }

/-!  ## Theorems -/

lemma get_last_event_value_eq_getLast (events : List Status) :
    get_last_event_value events = events.getLast?.map (fun e => e.value) := by
  unfold get_last_event_value orderByDateDescLimit
  rw [show (events.reverse.take 1).head? = events.reverse.head? by
        cases events.reverse <;> rfl,
      List.head?_reverse]

lemma record_event_preserves_alternation (events : List Status) (v : Bool)
    (i d : Nat) (h : ValueAlternates events) :
    ValueAlternates (record_event_if_changed events v i d).1 := by
  unfold record_event_if_changed
  rcases hlast : get_last_event_value events with _ | lv
  · -- no prior event: the store was empty
    simp only [hlast]
    rw [get_last_event_value_eq_getLast] at hlast
    have hnil : events = [] := by
      cases events using List.reverseRecOn with
      | nil => rfl
      | append_singleton l e => simp at hlast
    subst hnil
    show ValueAlternates [⟨i, v, none, d⟩]
    exact List.chain'_singleton _
  · by_cases hv : lv = v
    · simp only [hlast, if_pos hv]
      exact h
    · simp only [hlast, if_neg hv]
      show ValueAlternates (events ++ [⟨i, v, none, d⟩])
      refine List.chain'_append.2 ⟨h, List.chain'_singleton _, ?_⟩
      intro x hx y hy
      have hy2 : (⟨i, v, none, d⟩ : Status) = y := by simpa using hy
      have hx2 : events.getLast? = some x := Option.mem_def.mp hx
      rw [get_last_event_value_eq_getLast, hx2] at hlast
      have hxv : x.value = lv := by simpa using hlast
      rw [← hy2]
      intro hc
      exact hv (by rw [← hxv]; exact hc)

lemma runSchedulerFrom_preserves_alternation (readings : List Bool) :
    ∀ (events : List Status) (n : Nat), ValueAlternates events →
      ValueAlternates (runSchedulerFrom events n readings) := by
  induction readings with
  | nil => intro events n h; exact h
  | cons r rs ih =>
    intro events n h
    exact ih _ _ (record_event_preserves_alternation events r n n h)


lemma tick_cursor_eq_latest (events : List Status) (users : List User)
    (cur : Option Nat) (deliver : User → Nat → Except Exn Unit)
    (latest : Status) (rest : List Status)
    (h : orderByDateDescLimit 2 events = latest :: rest) :
    (check_and_send_notifications events users cur deliver).cursor =
      some latest.id := by
  unfold check_and_send_notifications
  rw [h]
  cases cur with
  | none => simp
  | some c =>
    by_cases hc : latest.id = c
    · simp [hc]
    · simp only [if_neg hc]
      cases rest with
      | nil => rfl
      | cons prev tail =>
        by_cases hv : latest.value = prev.value
        · simp [hv]
        · simp only [if_neg hv]
          by_cases he : (users.filter (fun u => u.notifs_enabled)).isEmpty
          · simp [he]
          · simp [he]

lemma tick_broadcast_requires (events : List Status) (users : List User)
    (cur : Option Nat) (deliver : User → Nat → Except Exn Unit) :
    (check_and_send_notifications events users cur deliver).broadcasted = true →
      ∃ latest rest c, orderByDateDescLimit 2 events = latest :: rest ∧
        cur = some c ∧ c ≠ latest.id := by
  unfold check_and_send_notifications
  rcases h2 : orderByDateDescLimit 2 events with _ | ⟨latest, rest⟩
  · intro hb
    simp at hb
  · cases cur with
    | none =>
      intro hb
      simp at hb
    | some c =>
      by_cases hc : latest.id = c
      · intro hb
        simp [hc] at hb
      · intro _
        exact ⟨latest, rest, c, rfl, rfl, fun hce => hc hce.symm⟩

lemma tick_no_broadcast_of_cursor_none (events : List Status)
    (users : List User) (deliver : User → Nat → Except Exn Unit) :
    (check_and_send_notifications events users none deliver).broadcasted =
      false := by
  unfold check_and_send_notifications
  rcases orderByDateDescLimit 2 events with _ | ⟨latest, rest⟩
  · rfl
  · simp

/-- C1: At-most-one broadcast per StatusEvent.  The notification tick
broadcasts only when the latest StatusEvent id differs from the cursor (so in
particular only when the cursor was already initialised); on the first tick
(`last_notified_status_id = None`) the cursor is initialised to the latest
observed event id and nothing is broadcast; and on every tick that observes a
latest event, the cursor ends equal to that event's id — whether or not a
broadcast was needed. -/
theorem c1_cursor_invariant (events : List Status) (users : List User)
    (cur : Option Nat) (deliver : User → Nat → Except Exn Unit) :
    ((check_and_send_notifications events users cur deliver).broadcasted = true →
      ∃ latest rest c, orderByDateDescLimit 2 events = latest :: rest ∧
        cur = some c ∧ c ≠ latest.id) ∧
    (cur = none →
      (check_and_send_notifications events users cur deliver).broadcasted = false) ∧
    (∀ latest rest, orderByDateDescLimit 2 events = latest :: rest →
      (check_and_send_notifications events users cur deliver).cursor =
        some latest.id) := by
  refine ⟨tick_broadcast_requires events users cur deliver, ?_, ?_⟩
  · intro hcur
    subst hcur
    exact tick_no_broadcast_of_cursor_none events users deliver
  · intro l r hlr
    exact tick_cursor_eq_latest events users cur deliver l r hlr

/-- C1 witness: a store with a single event, first tick after start — the
cursor initialises to the latest id and nothing is broadcast. -/
theorem c1_cursor_invariant_witness :
    (check_and_send_notifications [⟨1, true, none, 100⟩] [] none
      (fun _ _ => Except.ok ())).cursor = some 1 ∧
    (check_and_send_notifications [⟨1, true, none, 100⟩] [] none
      (fun _ _ => Except.ok ())).broadcasted = false := by
  have h := c1_cursor_invariant [⟨1, true, none, 100⟩] [] none
    (fun _ _ => Except.ok ())
  exact ⟨h.2.2 ⟨1, true, none, 100⟩ [] (by rfl), h.2.1 rfl⟩

lemma send_status_notification_nonretryable (e : Exn)
    (f : Nat → Except Exn Unit)
    (he : _is_retryable_telegram_exception e = false)
    (hf : f 1 = Except.error e) :
    send_status_notification f = DeliveryResult.failure e := by
  simp [send_status_notification, send_message_with_retry, retryCall, hf, he]

lemma tick_successes_zero (events : List Status) (users : List User)
    (cur : Option Nat) (deliver : User → Nat → Except Exn Unit)
    (hall : ∀ u : User,
      (send_status_notification (deliver u)).isSuccess = false) :
    (check_and_send_notifications events users cur deliver).successes = 0 := by
  have hnil : (List.filter (fun r => r.isSuccess)
      ((users.filter (fun u => u.notifs_enabled)).map
        (fun u => send_status_notification (deliver u)))) = [] := by
    refine List.filter_eq_nil_iff.mpr ?_
    intro r hr
    obtain ⟨u, _, rfl⟩ := List.mem_map.mp hr
    simp [hall u]
  unfold check_and_send_notifications
  rcases orderByDateDescLimit 2 events with _ | ⟨latest, rest⟩
  · rfl
  · simp only [hnil, List.length_nil]
    repeat' split
    all_goals rfl

/-- C2: Debounce/deduplication invariant of the Transition Detector.  For
every sequence of raw readings fed from an empty store, the event store never
contains two adjacent events with equal value; and `record_event_if_changed`
inserts exactly when no prior event exists or the most recent event's value
differs, leaving the store untouched otherwise. -/
theorem c2_debounce_invariant :
    (∀ readings : List Bool,
      List.Chain' (fun a b : Status => a.value ≠ b.value)
        (runScheduler readings)) ∧
    (∀ (events : List Status) (v : Bool) (i d : Nat),
      ((record_event_if_changed events v i d).2 = true ↔
        get_last_event_value events = none ∨
          ∃ lv, get_last_event_value events = some lv ∧ lv ≠ v) ∧
      ((record_event_if_changed events v i d).2 = false →
        (record_event_if_changed events v i d).1 = events)) := by
  constructor
  · intro readings
    exact runSchedulerFrom_preserves_alternation readings [] 0 List.chain'_nil
  · intro events v i d
    unfold record_event_if_changed
    rcases hlast : get_last_event_value events with _ | lv
    · simp [hlast]
    · by_cases hv : lv = v
      · simp [hlast, hv]
      · simp [hlast, hv]

/-- C2 witness: the spec's own example sequence `[true, true, false, false,
true]` yields an alternating log, and an insertion into an empty store is
recorded. -/
theorem c2_debounce_invariant_witness :
    List.Chain' (fun a b : Status => a.value ≠ b.value)
      (runScheduler [true, true, false, false, true]) ∧
    (record_event_if_changed [] true 7 7).2 = true := by
  refine ⟨c2_debounce_invariant.1 _, ?_⟩
  exact (c2_debounce_invariant.2 [] true 7 7).1.mpr (Or.inl (by rfl))

/-- C3: In the modular fanout path every delivery attempt raises `TypeError`
before any send occurs.  `_send_status_notification` passes 5 positional
arguments to `send_message_with_retry`, whose signature has 6 required
parameters in a different order — positional binding puts the rate limiter
in the `bot_app` parameter and the user id in the `rate_limiter` parameter,
and fails for lack of a 6th argument.  Consequently every delivery is
recorded as a failure with zero messages sent, and a tick whose deliveries
all fail this way still advances the cursor with zero successes. -/
theorem c3_modular_arity_bug :
    send_status_notification_call_args.length = 5 ∧
    send_message_with_retry_required_params.length = 6 ∧
    bindPositional send_message_with_retry_required_params
      send_status_notification_call_args = none ∧
    (send_message_with_retry_required_params.zip
        send_status_notification_call_args).take 3 =
      [("bot_app", "rate_limiter"), ("semaphore", "semaphore"),
        ("rate_limiter", "user_id")] ∧
    (∀ sendWith, _send_status_notification_modular sendWith =
      (DeliveryResult.failure typeErrorExn, 0)) ∧
    (∀ plabel events users c deliver latest rest,
      orderByDateDescLimit 2 (filterByLabel plabel events) = latest :: rest →
      (∀ u : User, send_status_notification (deliver u) =
        DeliveryResult.failure typeErrorExn) →
      (check_and_send_notifications_modular plabel events users c
          deliver).cursor = some latest.id ∧
      (check_and_send_notifications_modular plabel events users c
          deliver).successes = 0) := by
  refine ⟨rfl, rfl, rfl, rfl, fun sendWith => rfl, ?_⟩
  intro plabel events users c deliver latest rest h2 hfail
  refine ⟨tick_cursor_eq_latest _ users c deliver latest rest h2, ?_⟩
  exact tick_successes_zero _ users c deliver (fun u => by rw [hfail u]; rfl)

/-- C3 witness: the mangled call fails even when the real send would succeed,
and a concrete tick over two power-labelled events with one enabled
subscriber advances the cursor with zero successful sends. -/
theorem c3_modular_arity_bug_witness :
    _send_status_notification_modular (fun _ => (DeliveryResult.success, 1)) =
      (DeliveryResult.failure typeErrorExn, 0) ∧
    (check_and_send_notifications_modular "power"
        [⟨1, false, some "power", 0⟩, ⟨2, true, some "power", 60⟩]
        [⟨7, true, true, none⟩] (some 1)
        (fun _ _ => Except.error typeErrorExn)).cursor = some 2 ∧
    (check_and_send_notifications_modular "power"
        [⟨1, false, some "power", 0⟩, ⟨2, true, some "power", 60⟩]
        [⟨7, true, true, none⟩] (some 1)
        (fun _ _ => Except.error typeErrorExn)).successes = 0 := by
  have h6 := c3_modular_arity_bug.2.2.2.2.2 "power"
    [⟨1, false, some "power", 0⟩, ⟨2, true, some "power", 60⟩]
    [⟨7, true, true, none⟩] (some 1) (fun _ _ => Except.error typeErrorExn)
    ⟨2, true, some "power", 60⟩ [⟨1, false, some "power", 0⟩]
    (by rfl)
    (fun u => send_status_notification_nonretryable typeErrorExn _
      (by decide) rfl)
  exact ⟨c3_modular_arity_bug.2.2.2.2.1 _, h6.1, h6.2⟩

/-- C4: Per-recipient failure isolation and fanout reporting.  On a broadcast
tick with exactly 3 enabled subscribers of which the second delivery
permanently fails and the other two succeed, the tick's report counts 2
successes and 1 failure, the cursor advances to the latest event id, and the
failing recipient's final error is returned as a per-recipient value
(`DeliveryResult.failure e`) by the total function `send_status_notification`
— it is never re-raised into the batch coordinator, so the other two
deliveries are counted as successes in the same report. -/
theorem c4_failure_isolation (events : List Status) (users : List User)
    (c : Nat) (deliver : User → Nat → Except Exn Unit)
    (latest prev : Status) (tail : List Status) (u1 u2 u3 : User) (e : Exn)
    (h2 : orderByDateDescLimit 2 events = latest :: prev :: tail)
    (hc : latest.id ≠ c)
    (hv : latest.value ≠ prev.value)
    (hu : users.filter (fun u => u.notifs_enabled) = [u1, u2, u3])
    (hd1 : send_status_notification (deliver u1) = DeliveryResult.success)
    (hd2 : send_status_notification (deliver u2) = DeliveryResult.failure e)
    (hd3 : send_status_notification (deliver u3) = DeliveryResult.success) :
    check_and_send_notifications events users (some c) deliver =
      { cursor := some latest.id, broadcasted := true, successes := 2,
        failures := 1,
        time_diff := some (timedeltaSeconds
          (latest.date_created - prev.date_created)) } := by
  unfold check_and_send_notifications
  rw [h2]
  simp only [hu, if_neg hc, if_neg hv, List.isEmpty_cons, List.map_cons,
    List.map_nil, hd1, hd2, hd3]
  simp [DeliveryResult.isSuccess]

/-- C4 witness: concrete 3-subscriber fanout, second recipient permanently
failing — report 2 successes / 1 failure, cursor advanced. -/
theorem c4_failure_isolation_witness :
    check_and_send_notifications
      [⟨1, false, none, 0⟩, ⟨2, true, none, 2700⟩]
      [⟨11, true, true, none⟩, ⟨22, true, true, none⟩, ⟨33, true, true, none⟩]
      (some 1)
      (fun u _ => if u.id == 22 then Except.error permanentExn
                  else Except.ok ()) =
      { cursor := some 2, broadcasted := true, successes := 2, failures := 1,
        time_diff := some 2700 } := by
  have h := c4_failure_isolation
    [⟨1, false, none, 0⟩, ⟨2, true, none, 2700⟩]
    [⟨11, true, true, none⟩, ⟨22, true, true, none⟩, ⟨33, true, true, none⟩]
    1
    (fun u _ => if u.id == 22 then Except.error permanentExn
                else Except.ok ())
    ⟨2, true, none, 2700⟩ ⟨1, false, none, 0⟩ []
    ⟨11, true, true, none⟩ ⟨22, true, true, none⟩ ⟨33, true, true, none⟩
    permanentExn
    (by rfl) (by decide) (by decide) (by rfl)
    (by decide) (by decide) (by decide)
  exact h

lemma retryCall_attempts_le (retryable : Exn → Bool) (wait : Nat → Nat)
    (f : Nat → Except Exn Unit) :
    ∀ (fuel a : Nat), (retryCall retryable wait f fuel a).attempts ≤ a + fuel := by
  intro fuel
  induction fuel with
  | zero =>
    intro a
    simp [retryCall]
  | succ n ih =>
    intro a
    unfold retryCall
    cases hfa : f a with
    | ok _ => simp
    | error e =>
      by_cases hr : retryable e
      · simp only [hr, if_true]
        calc (retryCall retryable wait f n (a + 1)).attempts
            ≤ (a + 1) + n := ih (a + 1)
          _ = a + (n + 1) := by omega
      · simp [hr]

/-- C5: Delivery retry semantics.  A send is retried up to 3 attempts total;
the backoff sleeps follow `wait_exponential(multiplier=1, min=1, max=5)`
(base 1 s, cap 5 s); a delivery failing twice with transient errors and
succeeding on the third attempt is an overall success with exactly 3
attempts and backoff sleeps of 1 s then 2 s; a non-transient first failure
is not retried (1 attempt, error surfaced). -/
theorem c5_retry_semantics :
    (∀ (f : Nat → Except Exn Unit) (e1 e2 : Exn),
      f 1 = Except.error e1 → f 2 = Except.error e2 → f 3 = Except.ok () →
      _is_retryable_telegram_exception e1 = true →
      _is_retryable_telegram_exception e2 = true →
      send_message_with_retry f =
        { attempts := 3, waits := [1, 2], result := Except.ok () }) ∧
    (∀ (f : Nat → Except Exn Unit) (e : Exn),
      f 1 = Except.error e →
      _is_retryable_telegram_exception e = false →
      send_message_with_retry f =
        { attempts := 1, waits := [], result := Except.error e }) ∧
    (∀ f, (send_message_with_retry f).attempts ≤ 3) ∧
    (∀ a, 1 ≤ tenacityWait 1 1 5 a ∧ tenacityWait 1 1 5 a ≤ 5) := by
  refine ⟨?_, ?_, ?_, ?_⟩
  · intro f e1 e2 h1 h2 h3 r1 r2
    simp [send_message_with_retry, retryCall, h1, h2, h3, r1, r2, tenacityWait]
  · intro f e h1 hr
    simp [send_message_with_retry, retryCall, h1, hr]
  · intro f
    exact retryCall_attempts_le _ _ f 2 1
  · intro a
    unfold tenacityWait
    constructor
    · exact le_min (by norm_num) (le_max_left 1 _)
    · exact min_le_left _ _

/-- C5 witness: two transient timeouts then success ⇒ overall success in
exactly 3 attempts with sleeps 1 s and 2 s; a permanent error ⇒ exactly 1
attempt, error surfaced. -/
theorem c5_retry_semantics_witness :
    send_message_with_retry
      (fun n => if n < 3 then Except.error transientExn else Except.ok ()) =
      { attempts := 3, waits := [1, 2], result := Except.ok () } ∧
    send_message_with_retry (fun _ => Except.error permanentExn) =
      { attempts := 1, waits := [], result := Except.error permanentExn } := by
  exact ⟨c5_retry_semantics.1 _ transientExn transientExn rfl rfl rfl
          (by decide) (by decide),
        c5_retry_semantics.2.1 _ permanentExn rfl (by decide)⟩

/-- C6: Elapsed-time phrasing.  The broadcast tick passes
`time_diff = (latest.created_at - previous.created_at).seconds` to the
message builder; with the English words, a 125-minute gap (7500 s) makes the
displayed message include "2 h. and 5 min.", a 45-minute gap (2700 s) makes
it include "45 min.", and an absent previous event (`time_diff = None`)
produces no elapsed-time phrase at all. -/
theorem c6_elapsed_time_phrasing :
    (∀ events users c deliver latest prev tail,
      orderByDateDescLimit 2 events = latest :: prev :: tail →
      latest.id ≠ c → latest.value ≠ prev.value →
      (users.filter (fun u => u.notifs_enabled)).isEmpty = false →
      (check_and_send_notifications events users (some c) deliver).time_diff =
        some (timedeltaSeconds (latest.date_created - prev.date_created))) ∧
    (∀ fs ts : Bool, fs ≠ ts →
      strContains (renderedText (notification_text enLangWords fs ts
        (some 7500))) "2 h. and 5 min." = true ∧
      strContains (renderedText (notification_text enLangWords fs ts
        (some 2700))) "45 min." = true) ∧
    (∀ fs ts : Bool, time_diff_text enLangWords none fs ts = "") := by
  refine ⟨?_, ?_, ?_⟩
  · intro events users c deliver latest prev tail h2 hc hv he
    unfold check_and_send_notifications
    rw [h2]
    simp only [if_neg hc, if_neg hv, he]
    simp
  · intro fs ts hne
    cases fs <;> cases ts
    · exact absurd rfl hne
    · exact ⟨by decide, by decide⟩
    · exact ⟨by decide, by decide⟩
    · exact absurd rfl hne
  · intro fs ts
    rfl

/-- C6 witness: two events 125 minutes apart give `time_diff = 7500` on the
broadcast tick, and the displayed English message contains "2 h. and 5
min."; 45 minutes apart contains "45 min.". -/
theorem c6_elapsed_time_phrasing_witness :
    (check_and_send_notifications
      [⟨1, true, none, 0⟩, ⟨2, false, none, 7500⟩] [⟨5, true, true, none⟩]
      (some 1) (fun _ _ => Except.ok ())).time_diff = some 7500 ∧
    strContains (renderedText (notification_text enLangWords true false
      (some 7500))) "2 h. and 5 min." = true ∧
    strContains (renderedText (notification_text enLangWords false true
      (some 2700))) "45 min." = true := by
  refine ⟨?_, (c6_elapsed_time_phrasing.2.1 true false (by decide)).1,
    (c6_elapsed_time_phrasing.2.1 false true (by decide)).2⟩
  exact c6_elapsed_time_phrasing.1
    [⟨1, true, none, 0⟩, ⟨2, false, none, 7500⟩] [⟨5, true, true, none⟩]
    1 (fun _ _ => Except.ok ()) ⟨2, false, none, 7500⟩ ⟨1, true, none, 0⟩ []
    (by rfl) (by decide) (by decide) (by rfl)

lemma deviceRetryCall_attempts_le (wait : Nat → Nat)
    (g : Nat → Except Unit Bool) :
    ∀ (fuel a : Nat),
      (deviceRetryCall wait g fuel a).attempts ≤ a + fuel := by
  intro fuel
  induction fuel with
  | zero =>
    intro a
    simp [deviceRetryCall]
  | succ n ih =>
    intro a
    unfold deviceRetryCall
    cases hga : g a with
    | ok v => simp
    | error e =>
      calc (deviceRetryCall wait g n (a + 1)).attempts
          ≤ (a + 1) + n := ih (a + 1)
        _ = a + (n + 1) := by omega

/-- C7: Direct-query liveness sampling.  `is_device_on` makes at most 5
attempts with exponential backoff (sleeps 1, 2, 4, 8 s when all attempts
fail, capped at 10 s); exhausting all attempts surfaces only the
`DeviceTimeoutError` of the retry callback, which `poll_once` converts into
a definite `false` reading fed to the Transition Detector — no error
propagates out of the poll.  A first-attempt success passes the device
answer through untouched. -/
theorem c7_device_query_retry :
    (∀ g : Nat → Except Unit Bool, (is_device_on g).attempts ≤ 5) ∧
    (∀ g : Nat → Except Unit Bool, (∀ a, g a = Except.error ()) →
      (is_device_on g).result = Except.error () ∧
      (is_device_on g).waits = [1, 2, 4, 8] ∧
      ∀ events newId newDate,
        poll_once events g newId newDate =
          record_event_if_changed events false newId newDate) ∧
    (∀ (g : Nat → Except Unit Bool) (v : Bool), g 1 = Except.ok v →
      (is_device_on g).result = Except.ok v ∧
      (is_device_on g).attempts = 1) := by
  refine ⟨?_, ?_, ?_⟩
  · intro g
    exact deviceRetryCall_attempts_le _ g 4 1
  · intro g hg
    have hres : (is_device_on g).result = Except.error () := by
      simp [is_device_on, deviceRetryCall, hg]
    refine ⟨hres, ?_, ?_⟩
    · simp [is_device_on, deviceRetryCall, hg, tenacityWait]
    · intro events newId newDate
      unfold poll_once
      rw [hres]
  · intro g v h1
    constructor <;> simp [is_device_on, deviceRetryCall, h1]

/-- C7 witness: a device that never answers yields 5 attempts' worth of
backoff `[1, 2, 4, 8]`, a definite `false` reading and a recorded
powered-off event from an empty store; a healthy device's answer passes
through on attempt 1. -/
theorem c7_device_query_retry_witness :
    (is_device_on (fun _ => Except.error ())).result = Except.error () ∧
    (is_device_on (fun _ => Except.error ())).waits = [1, 2, 4, 8] ∧
    poll_once [] (fun _ => Except.error ()) 1 50 =
      ([⟨1, false, none, 50⟩], true) ∧
    (is_device_on (fun _ => Except.ok true)).result = Except.ok true := by
  have h2 := c7_device_query_retry.2.1 (fun _ => Except.error ())
    (fun _ => rfl)
  refine ⟨h2.1, h2.2.1, ?_, (c7_device_query_retry.2.2
    (fun _ => Except.ok true) true rfl).1⟩
  rw [h2.2.2 [] 1 50]
  rfl

/-- C8: Heartbeat-staleness liveness strategy (spec-modelled, see
`heartbeat_sample`).  With the reference multiplier `k = 5`, a present
heartbeat samples `powered = (now - timestamp ≤ 5 * poll_interval)`; with no
heartbeat record the tick is a no-sample tick — the store is unchanged and
nothing is recorded — and since the store is unchanged, a notification tick
whose cursor already points at the latest event does not broadcast. -/
theorem c8_heartbeat_staleness :
    (∀ (hb : Heartbeat) (ts now ip : Nat), hb.timestamp = some ts →
      heartbeat_sample (some hb) now ip 5 =
        some (decide (now - ts ≤ 5 * ip))) ∧
    (∀ events now ip k newId newDate,
      heartbeat_poll_once events none now ip k newId newDate =
        (events, false)) ∧
    (∀ events users deliver latest rest,
      orderByDateDescLimit 2 events = latest :: rest →
      (check_and_send_notifications events users (some latest.id)
        deliver).broadcasted = false) := by
  refine ⟨?_, ?_, ?_⟩
  · intro hb ts now ip hts
    simp [heartbeat_sample, hts]
  · intro events now ip k newId newDate
    rfl
  · intro events users deliver latest rest h2
    unfold check_and_send_notifications
    rw [h2]
    simp

/-- C8 witness: a fresh heartbeat (30 s old, 10 s interval, k = 5) samples
powered, a 51-second-stale one samples unpowered, a cold start records
nothing, and the caught-up notification tick stays silent. -/
theorem c8_heartbeat_staleness_witness :
    heartbeat_sample (some ⟨1, some 100, none⟩) 130 10 5 = some true ∧
    heartbeat_sample (some ⟨1, some 100, none⟩) 151 10 5 = some false ∧
    heartbeat_poll_once [⟨1, true, none, 0⟩] none 130 10 5 2 130 =
      ([⟨1, true, none, 0⟩], false) ∧
    (check_and_send_notifications [⟨1, true, none, 0⟩] [⟨9, true, true, none⟩]
      (some 1) (fun _ _ => Except.ok ())).broadcasted = false := by
  refine ⟨?_, ?_,
    c8_heartbeat_staleness.2.1 [⟨1, true, none, 0⟩] 130 10 5 2 130, ?_⟩
  · rw [c8_heartbeat_staleness.1 ⟨1, some 100, none⟩ 100 130 10 rfl]
    decide
  · rw [c8_heartbeat_staleness.1 ⟨1, some 100, none⟩ 100 151 10 rfl]
    decide
  · exact c8_heartbeat_staleness.2.2 [⟨1, true, none, 0⟩]
      [⟨9, true, true, none⟩] (fun _ _ => Except.ok ())
      ⟨1, true, none, 0⟩ [] (by rfl)

/-- C9 counterexample: the claim says a request with a bad OR MISSING token
returns 401; but a request with no bearer credentials at all is rejected by
the `HTTPBearer` dependency (`auto_error=True`) with **403** — the endpoint
body, and hence `_validate_token`'s 401, is never reached. -/
theorem c9_counterexample :
    (listen_heartbeat "secret" none 5 none 10).1.status_code = 403 ∧
    ¬ (listen_heartbeat "secret" none 5 none 10).1.status_code = 401 := by
  exact ⟨rfl, by decide⟩

/-- C9 (amended): with a token configured, a request presenting the correct
bearer token returns 200 with `{status, timestamp, received_at}` and upserts
the heartbeat row's timestamp; presenting a WRONG bearer token returns 401
and leaves the row untouched; presenting NO bearer credentials is rejected
with 403 by the bearer-auth dependency; and `GET /health` returns 200
`{status: "ok"}` unconditionally. -/
theorem c9_heartbeat_ingress (tok cred : String) (ts now : Nat)
    (db : Option Heartbeat) (htok : tok ≠ "") :
    (cred = tok →
      (listen_heartbeat tok (some cred) ts db now).1 =
        ⟨200, some "ok", some ts, some now⟩ ∧
      ((listen_heartbeat tok (some cred) ts db now).2.map
        (fun h => h.timestamp)) = some (some ts)) ∧
    (cred ≠ tok →
      (listen_heartbeat tok (some cred) ts db now).1 =
        ⟨401, none, none, none⟩ ∧
      (listen_heartbeat tok (some cred) ts db now).2 = db) ∧
    (listen_heartbeat tok none ts db now).1.status_code = 403 ∧
    health = ⟨200, some "ok", none, none⟩ := by
  refine ⟨?_, ?_, rfl, rfl⟩
  · intro hok
    subst hok
    have hv : _validate_token_ok cred cred = true := by
      simp [_validate_token_ok]
    constructor
    · simp [listen_heartbeat, hv]
    · cases db <;> simp [listen_heartbeat, hv]
  · intro hbad
    have hv : _validate_token_ok tok cred = false := by
      simp [_validate_token_ok]
      exact hbad
    constructor <;> simp [listen_heartbeat, hv, htok]

/-- C9 witness for the amended statement: concrete valid, wrong-token and
missing-credential requests. -/
theorem c9_heartbeat_ingress_witness :
    (listen_heartbeat "secret" (some "secret") 5 (some ⟨1, some 2, none⟩)
      10).1 = ⟨200, some "ok", some 5, some 10⟩ ∧
    (listen_heartbeat "secret" (some "wrong") 5 (some ⟨1, some 2, none⟩)
      10).1 = ⟨401, none, none, none⟩ ∧
    (listen_heartbeat "secret" none 5 (some ⟨1, some 2, none⟩)
      10).1.status_code = 403 := by
  have h := c9_heartbeat_ingress "secret" "secret" 5 10
    (some ⟨1, some 2, none⟩) (by decide)
  have h2 := c9_heartbeat_ingress "secret" "wrong" 5 10
    (some ⟨1, some 2, none⟩) (by decide)
  exact ⟨(h.1 rfl).1, (h2.2.1 (by decide)).1, h2.2.2.1⟩

lemma record_event_label_none (events : List Status) (v : Bool) (i d : Nat)
    (h : ∀ e ∈ events, e.label = none) :
    ∀ e ∈ (record_event_if_changed events v i d).1, e.label = none := by
  unfold record_event_if_changed
  rcases get_last_event_value events with _ | lv
  · intro e he
    rcases List.mem_append.mp he with hl | hr
    · exact h e hl
    · rw [List.mem_singleton.mp hr]
  · by_cases hv : lv = v
    · simp only [if_pos hv]
      exact h
    · simp only [if_neg hv]
      intro e he
      rcases List.mem_append.mp he with hl | hr
      · exact h e hl
      · rw [List.mem_singleton.mp hr]

lemma runSchedulerFrom_label_none (readings : List Bool) :
    ∀ (events : List Status) (n : Nat), (∀ e ∈ events, e.label = none) →
      ∀ e ∈ runSchedulerFrom events n readings, e.label = none := by
  induction readings with
  | nil =>
    intro events n h
    exact h
  | cons r rs ih =>
    intro events n h
    exact ih _ _ (record_event_label_none events r n n h)

/-- C10: The polling scheduler inserts every StatusEvent with `label` unset
(NULL), and its own most-recent-event read is label-blind (relabelling the
whole store does not change what it reads); consequently the read queries
that filter on `label = str(Label.power)` never return a scheduler-inserted
event — in particular the modular notification job, run over a store
populated only by the scheduler, sees no statuses at all and returns without
touching the cursor. -/
theorem c10_label_mismatch :
    (∀ readings, ∀ e ∈ runScheduler readings, e.label = none) ∧
    (∀ events l, get_last_event_value (relabel l events) =
      get_last_event_value events) ∧
    (∀ readings p, filterByLabel p (runScheduler readings) = []) ∧
    (∀ readings p users cur deliver,
      check_and_send_notifications_modular p (runScheduler readings) users
        cur deliver = ⟨cur, false, 0, 0, none⟩) := by
  have hlab : ∀ readings, ∀ e ∈ runScheduler readings, e.label = none :=
    fun readings =>
      runSchedulerFrom_label_none readings [] 0 (by intro e he; simp at he)
  have hfilter : ∀ readings p, filterByLabel p (runScheduler readings) = [] := by
    intro readings p
    refine List.filter_eq_nil_iff.mpr ?_
    intro e he
    rw [hlab readings e he]
    simp
  refine ⟨hlab, ?_, hfilter, ?_⟩
  · intro events l
    rw [get_last_event_value_eq_getLast, get_last_event_value_eq_getLast,
      ← List.head?_reverse, ← List.head?_reverse]
    show ((events.map _).reverse.head?).map _ = _
    rw [← List.map_reverse]
    cases events.reverse with
    | nil => rfl
    | cons a t => rfl
  · intro readings p users cur deliver
    unfold check_and_send_notifications_modular check_and_send_notifications
    rw [hfilter readings p]
    rfl

/-- C10 witness: the spec's reading sequence produces three events, all with
NULL label; the power-labelled query returns none of them and the modular
job's tick is a no-op. -/
theorem c10_label_mismatch_witness :
    filterByLabel "power" (runScheduler [true, true, false, false, true]) =
      [] ∧
    check_and_send_notifications_modular "power"
      (runScheduler [true, true, false, false, true]) [⟨3, true, true, none⟩]
      (some 0) (fun _ _ => Except.ok ()) = ⟨some 0, false, 0, 0, none⟩ ∧
    (⟨0, true, none, 0⟩ : Status) ∈ runScheduler [true, true, false] ∧
    (⟨0, true, none, 0⟩ : Status).label = none := by
  have hmem : (⟨0, true, none, 0⟩ : Status) ∈ runScheduler [true, true, false] := by
    decide
  exact ⟨c10_label_mismatch.2.2.1 [true, true, false, false, true] "power",
    c10_label_mismatch.2.2.2 [true, true, false, false, true] "power"
      [⟨3, true, true, none⟩] (some 0) (fun _ _ => Except.ok ()),
    hmem,
    c10_label_mismatch.1 [true, true, false] ⟨0, true, none, 0⟩ hmem⟩

end ECBot

